import Mathlib

/-!
# Shallow embedding of the support-system ticket core

This file embeds, in Lean 4, the ticket intake / threading subsystem and the
SLA scoring subsystem of the `app` package (files `app/models.py`,
`app/routes/tickets.py`, `app/services/sla_service.py`,
`app/services/approval_service.py`, `app/services/scheduler_service.py`,
`app/services/imap_service.py`), and proves properties of the embedded
operations.

Modelling conventions:
* Python `datetime` values are rationals (seconds since the epoch);
  `timedelta(hours=h)` is `3600 * h` seconds.
* Python `int(x)` on a float truncates toward zero: `intTrunc`.
* Python `int(s)` on a string raises `ValueError` on malformed input, which we
  model as `Option`/`Except`.
* Python truthiness of an optional string (`if s:`) is `none ↦ False`,
  `some "" ↦ False`, otherwise `True`.
* The SQLAlchemy session is a `DB` record of the rows the claims touch;
  `db.query(...).first()` is `List.find?`, row mutation is `List.map`.
-/

/-- Python `int()` applied to a rational (e.g. a `float` expression):
truncation toward zero (`Int.tdiv` of the reduced numerator by the
denominator). -/
def intTrunc (q : ℚ) : ℤ :=
  q.num.tdiv q.den

/-- Python truthiness of an optional string (`None` and `""` are falsy). -/
def optStrTruthy : Option String → Bool
  | none => false
  | some s => s ≠ ""

/-- Python `a or b` for a string `a` falling back to `b` (`""` is falsy). -/
def pyOrStr (a b : String) : String :=
  if a ≠ "" then a else b

/-- Python `a or b` where `a` is an optional string (`None`/`""` fall back). -/
def pyOrOpt (a : Option String) (b : String) : String :=
  match a with
  | none => b
  | some s => pyOrStr s b

/-- Decimal value of a digit list; `none` on empty input or a non-digit. -/
def parseNatDigits (cs : List Char) : Option ℕ :=
  if cs = [] then none
  else
    cs.foldl
      (fun acc c =>
        match acc with
        | some a => if c.isDigit then some (10 * a + (c.toNat - 48)) else none
        | none => none)
      (some 0)

/-- Python `int(s)` on a string (an optional sign followed by decimal
digits); `none` models the `ValueError` on malformed input. -/
def pyInt? (s : String) : Option ℤ :=
  match s.data with
  | '-' :: cs => (parseNatDigits cs).map (fun n => -(n : ℤ))
  | '+' :: cs => (parseNatDigits cs).map (fun n => (n : ℤ))
  | cs => (parseNatDigits cs).map (fun n => (n : ℤ))

/-- Embeds `app.models.ApprovalStatus` (`str` enum). -/
inductive ApprovalStatus where
  | PENDING
  | APPROVED
  | REJECTED
deriving DecidableEq, Repr

/-- The `.value` of an `ApprovalStatus` member. -/
def ApprovalStatus.value : ApprovalStatus → String
  | .PENDING => "PENDING"
  | .APPROVED => "APPROVED"
  | .REJECTED => "REJECTED"

/-- A row of the `tickets` table (`app.models.Ticket`), restricted to the
columns used by the intake, approval and SLA code. -/
structure Ticket where
  id : ℕ
  sender_email : String
  subject : String
  received_at : Option ℚ
  urgency : Option String
  draft_response : Option String
  approval_status : String
  sent_at : Option ℚ
  thread_id : Option String
  message_id : Option String
  in_reply_to : Option String
  ai_processed : Bool
  escalation_required : Bool
  sla_deadline : Option ℚ
  sla_breached : Bool
  priority_score : ℤ
deriving DecidableEq, Repr

/-- Column defaults of `app.models.Ticket` for a freshly constructed row
(the intake code only passes the listed keyword arguments; everything else
takes the model default: `approval_status = PENDING`, booleans `False`,
`priority_score = 0`, nullable columns `NULL`). -/
def Ticket.new (id : ℕ) (sender_email subject : String) (received_at : Option ℚ)
    (message_id : Option String) (in_reply_to : Option String)
    (thread_id : Option String) : Ticket :=
  { id := id
    sender_email := sender_email
    subject := subject
    received_at := received_at
    urgency := none
    draft_response := none
    approval_status := ApprovalStatus.PENDING.value
    sent_at := none
    thread_id := thread_id
    message_id := message_id
    in_reply_to := in_reply_to
    ai_processed := false
    escalation_required := false
    sla_deadline := none
    sla_breached := false
    priority_score := 0 }

/-- A row of the `ticket_messages` table (`app.models.TicketMessage`),
restricted to the columns the intake and approval code sets. -/
structure TicketMessage where
  ticket_id : ℕ
  sender_email : String
  subject : String
  body : String
  is_incoming : Bool
  message_id : Option String
  in_reply_to : Option String
deriving DecidableEq, Repr

/-- A row of the `settings` table: `(key, value)`. -/
abbrev SettingsRow := String × String

/-- Models `settings.get(key)`: value of the first row with the given key. -/
def settingsGet (settings : List SettingsRow) (key : String) : Option String :=
  (settings.find? (fun r => r.1 == key)).map (·.2)

/-- The database state: the rows of the tables the claims touch, plus the
autoincrement counter for `tickets.id`. -/
structure DB where
  tickets : List Ticket
  messages : List TicketMessage
  settings : List SettingsRow
  nextId : ℕ
deriving DecidableEq, Repr

/-! ## `app/services/sla_service.py` -/

/-- Embeds `SLA_HOURS` (sla_service.py): default SLA window per urgency, in hours. -/
def SLA_HOURS : List (String × ℤ) :=
  [("High", 4), ("Medium", 8), ("Low", 24)]

/-- Embeds `PRIORITY_WEIGHTS` (sla_service.py): urgency weight of the score. -/
def PRIORITY_WEIGHTS : List (String × ℤ) :=
  [("High", 100), ("Medium", 50), ("Low", 10)]

/-- Python `d.get(k, default)` on a `str → int` dict given as a pair list. -/
def dictGetZ (d : List (String × ℤ)) (k : String) (dflt : ℤ) : ℤ :=
  match d.find? (fun p => p.1 == k) with
  | some p => p.2
  | none => dflt

/-- The three per-urgency SLA windows, in hours. -/
structure SlaHours where
  high : ℤ
  medium : ℤ
  low : ℤ
deriving DecidableEq, Repr

/-- Models `int(settings_dict.get(key, default))` where `default` is already an
integer; `none` models the `ValueError` on a malformed stored value. -/
def settingIntOr (settings : List SettingsRow) (key : String) (dflt : ℤ) :
    Option ℤ :=
  match settingsGet settings key with
  | none => some dflt
  | some v => pyInt? v

/-- Embeds `get_sla_hours(db)` (sla_service.py): per-urgency hours from the
`sla_hours_*` settings rows, falling back to `SLA_HOURS`; `none` models the
`ValueError` raised by `int()` on a malformed setting. -/
def get_sla_hours (settings : List SettingsRow) : Option SlaHours := do
  let h ← settingIntOr settings "sla_hours_high" (dictGetZ SLA_HOURS "High" 0)
  let m ← settingIntOr settings "sla_hours_medium" (dictGetZ SLA_HOURS "Medium" 0)
  let l ← settingIntOr settings "sla_hours_low" (dictGetZ SLA_HOURS "Low" 0)
  pure { high := h, medium := m, low := l }

/-- Models `sla_hours.get(urgency, 24)` on the dict built by `get_sla_hours`
(keys `"High"`, `"Medium"`, `"Low"`; any other key — including a missing
urgency — falls back to `24`). -/
def slaHoursFor (hml : SlaHours) (urgency : Option String) : ℤ :=
  match urgency with
  | some u =>
    if u = "High" then hml.high
    else if u = "Medium" then hml.medium
    else if u = "Low" then hml.low
    else 24
  | none => 24

/-- The deadline arithmetic of `calculate_sla_deadline`:
`received_at + timedelta(hours=hours)`. -/
def deadlineFromHours (hml : SlaHours) (urgency : Option String)
    (received_at : ℚ) : ℚ :=
  received_at + 3600 * (slaHoursFor hml urgency : ℚ)

/-- Embeds `calculate_sla_deadline(db, urgency, received_at)` (sla_service.py);
`none` models the `ValueError` propagated out of `get_sla_hours`. -/
def calculate_sla_deadline (settings : List SettingsRow)
    (urgency : Option String) (received_at : ℚ) : Option ℚ :=
  (get_sla_hours settings).map (fun hml => deadlineFromHours hml urgency received_at)

/-- Embeds `calculate_priority_score(ticket)` (sla_service.py); `now` stands for
`datetime.utcnow()`. -/
def calculate_priority_score (now : ℚ) (t : Ticket) : ℤ :=
  let base : ℤ :=
    match t.urgency with
    | none => 10
    | some u => if u = "" then 10 else dictGetZ PRIORITY_WEIGHTS u 10
  let base : ℤ :=
    match t.received_at with
    | none => base
    | some r => base + intTrunc ((now - r) / 3600 * 2)
  let base : ℤ :=
    match t.sla_deadline with
    | none => base
    | some d =>
      let hoursUntil : ℚ := (d - now) / 3600
      if hoursUntil < 0 then base + 200
      else if hoursUntil < 2 then base + 100
      else if hoursUntil < 4 then base + 50
      else base
  if t.escalation_required then base + 75 else base

/-- Embeds `update_ticket_sla(db, ticket)` (sla_service.py); `now` stands for
`datetime.utcnow()` and the returned ticket for the committed row. `none`
models the `ValueError` out of `get_sla_hours` on a malformed setting. -/
def update_ticket_sla (settings : List SettingsRow) (now : ℚ) (t : Ticket) :
    Option Ticket :=
  let step1 : Option Ticket :=
    match t.received_at with
    | some r =>
      if optStrTruthy t.urgency then
        (calculate_sla_deadline settings t.urgency r).map
          (fun d => { t with sla_deadline := some d })
      else some t
    | none => some t
  step1.map (fun t1 =>
    let t2 := { t1 with priority_score := calculate_priority_score now t1 }
    match t2.sla_deadline with
    | some d =>
      if now > d then
        if t2.sent_at = none then { t2 with sla_breached := true } else t2
      else t2
    | none => t2)

/-- The filter of `update_all_sla_status` (and `get_priority_queue`):
`sent_at IS NULL AND approval_status != "REJECTED"`. -/
def isPendingRow (t : Ticket) : Bool :=
  t.sent_at == none && t.approval_status != "REJECTED"

/-- The body of the `for ticket in pending_tickets` loop of
`update_all_sla_status` (sla_service.py): recompute the deadline, re-derive
`sla_breached` from `now` against the new deadline, recompute the score.
Setting `sla_deadline`/`sla_breached` only when the value differs is
observationally the plain assignment, which is how it is written here. -/
def slaRecalcStep (hml : SlaHours) (now : ℚ) (t : Ticket) : Ticket :=
  match t.received_at with
  | some r =>
    if optStrTruthy t.urgency then
      let nd := deadlineFromHours hml t.urgency r
      let t1 := { t with sla_deadline := some nd }
      let t2 :=
        if now > nd then { t1 with sla_breached := true }
        else { t1 with sla_breached := false }
      { t2 with priority_score := calculate_priority_score now t2 }
    else { t with priority_score := calculate_priority_score now t }
  | none => { t with priority_score := calculate_priority_score now t }

/-- Embeds `update_all_sla_status(db)` (sla_service.py): apply `slaRecalcStep` to
every pending ticket. The per-urgency hours are read here once up front; the
Python code reads the unchanged settings once per ticket inside
`calculate_sla_deadline`, with the same result (`none` models the
`ValueError` on a malformed `sla_hours_*` setting). -/
def update_all_sla_status (settings : List SettingsRow) (now : ℚ) (db : DB) :
    Option DB :=
  (get_sla_hours settings).map (fun hml =>
    { db with
      tickets := db.tickets.map (fun t =>
        if isPendingRow t then slaRecalcStep hml now t else t) })

/-! ## `app/services/approval_service.py` -/

/-- An SMTP message handed to `smtp_service.send_email`. -/
structure OutgoingEmail where
  to_email : String
  subject : String
  body : String
  in_reply_to : Option String
  references : Option String
deriving DecidableEq, Repr

/-- Mutation of the row returned by `db.query(Ticket).filter(...).first()`:
update the first ticket with the given id, leave everything else alone. -/
def updateFirstTicket : List Ticket → ℕ → (Ticket → Ticket) → List Ticket
  | [], _, _ => []
  | t :: ts, tid, f =>
    if t.id == tid then f t :: ts else t :: updateFirstTicket ts tid f

/-- Embeds `send_approved_response(db, ticket_id)` (approval_service.py).
`now` stands for `datetime.utcnow()`; `smtpOk` is the boolean returned by
`smtp_service.send_email` (the send oracle). The result is the returned
boolean, the committed database, and the list of SMTP sends attempted during
the call. -/
def send_approved_response (db : DB) (ticket_id : ℕ) (now : ℚ)
    (smtpOk : Bool) : Bool × DB × List OutgoingEmail :=
  match db.tickets.find? (fun t => t.id == ticket_id) with
  | none => (false, db, [])
  | some t =>
    if t.approval_status ≠ ApprovalStatus.APPROVED.value then (false, db, [])
    else if ¬ optStrTruthy t.draft_response then (false, db, [])
    else
      let subject := "Re: " ++ t.subject
      let em : OutgoingEmail :=
        { to_email := t.sender_email
          subject := subject
          body := t.draft_response.getD ""
          in_reply_to := t.message_id
          references := t.message_id }
      if smtpOk then
        let outgoing : TicketMessage :=
          { ticket_id := t.id
            sender_email := "support@infinityworkitsolutions.com"
            subject := subject
            body := t.draft_response.getD ""
            is_incoming := false
            message_id := none
            in_reply_to := t.message_id }
        (true,
         { db with
           tickets :=
             updateFirstTicket db.tickets t.id (fun u => { u with sent_at := some now })
           messages := db.messages ++ [outgoing] },
         [em])
      else (false, db, [em])

/-- The condition under which `send_approved_response` reaches the SMTP
call: the ticket exists, is `APPROVED`, and has a truthy draft. -/
def sendGuard (db : DB) (ticket_id : ℕ) : Bool :=
  match db.tickets.find? (fun t => t.id == ticket_id) with
  | none => false
  | some t =>
    t.approval_status == ApprovalStatus.APPROVED.value
      && optStrTruthy t.draft_response

/-! ## `app/services/imap_service.py` -/

/-- Python `str.strip("<>")`: remove every leading and trailing `<` or `>`. -/
def stripAngles (s : String) : String :=
  let isAngle : Char → Bool := fun c => c == '<' || c == '>'
  String.mk (((s.data.dropWhile isAngle).reverse.dropWhile isAngle).reverse)

/-- Embeds `extract_thread_id(msg)` (imap_service.py). The `References` header is
represented by its whitespace-split token list (`references.split()`; the
empty or missing header is `[]`), the `In-Reply-To` header by an optional
raw string. -/
def extract_thread_id (references : List String)
    (in_reply_to : Option String) : Option String :=
  match references with
  | r :: _ => some (stripAngles r)
  | [] =>
    match in_reply_to with
    | some irt => if irt ≠ "" then some (stripAngles irt) else none
    | none => none

/-- One entry of the list returned by `fetch_unread_emails`: the
`email_data` dictionary. -/
structure EmailData where
  sender_email : String
  subject : String
  body : String
  message_id : String
  in_reply_to : Option String
  thread_id : String
  received_at : ℚ
deriving DecidableEq, Repr

/-- The raw header material of one fetched message that the intake-relevant
fields are computed from (sender/subject/body decoding is taken as given). -/
structure RawEmail where
  sender_email : String
  subject : String
  body : String
  message_id_header : String
  in_reply_to_header : Option String
  references_tokens : List String
  received_at : ℚ
deriving DecidableEq, Repr

/-- The per-message assembly in the loop of `fetch_unread_emails`
(imap_service.py): `message_id = msg.get("Message-ID", "").strip("<>")`,
`in_reply_to = msg.get("In-Reply-To", "").strip("<>") if msg.get("In-Reply-To") else None`,
`thread_id = extract_thread_id(msg) or message_id`. -/
def assembleEmail (raw : RawEmail) : EmailData :=
  let message_id := stripAngles raw.message_id_header
  let in_reply_to : Option String :=
    match raw.in_reply_to_header with
    | some h => if h ≠ "" then some (stripAngles h) else none
    | none => none
  let thread_id :=
    pyOrOpt (extract_thread_id raw.references_tokens raw.in_reply_to_header)
      message_id
  { sender_email := raw.sender_email
    subject := raw.subject
    body := raw.body
    message_id := message_id
    in_reply_to := in_reply_to
    thread_id := thread_id
    received_at := raw.received_at }

/-- Embeds `get_imap_config(db)` (imap_service.py). `env` is `os.environ.get`.
`none` models the `ValueError` raised by `int()` on a malformed port (note
that the port is parsed *before* the `all([...])` completeness check). -/
def get_imap_config (settings : List SettingsRow) (env : String → Option String) :
    Option (String × ℤ × String × String) := do
  let dbHost := settingsGet settings "imap_host"
  let dbPort ← pyInt? (pyOrOpt (settingsGet settings "imap_port") "993")
  let dbUser := settingsGet settings "imap_username"
  let dbPass := settingsGet settings "imap_password"
  if optStrTruthy dbHost && optStrTruthy dbUser && optStrTruthy dbPass then
    pure (dbHost.getD "", dbPort, dbUser.getD "", dbPass.getD "")
  else
    let host := (env "IMAP_HOST").getD ""
    let port ← pyInt? ((env "IMAP_PORT").getD "993")
    let user := (env "IMAP_USERNAME").getD ""
    let pass := (env "IMAP_PASSWORD").getD ""
    pure (host, port, user, pass)

/-- Outcome of the IMAP session inside the `try` block of
`fetch_unread_emails`: either one of the failure modes the code catches (or
the non-`"OK"` search status), or the list of fetched raw messages. -/
inductive ImapOutcome where
  | connectError
  | loginError
  | searchError
  | ok (msgs : List RawEmail)
deriving DecidableEq, Repr

/-- Embeds `fetch_unread_emails(db)` (imap_service.py). `Except.error ()` models an
exception propagating to the caller; everything inside the `try` block is
caught and at worst yields the already-accumulated (here: empty) list. -/
def fetch_unread_emails (settings : List SettingsRow)
    (env : String → Option String) (outcome : ImapOutcome) :
    Except Unit (List EmailData) :=
  match get_imap_config settings env with
  | none => .error ()
  | some (host, _port, username, password) =>
    if !(host ≠ "" && username ≠ "" && password ≠ "") then
      .ok []
    else
      match outcome with
      | .connectError => .ok []
      | .loginError => .ok []
      | .searchError => .ok []
      | .ok msgs => .ok (msgs.map assembleEmail)

/-! ## Intake: `fetch_emails` (app/routes/tickets.py) -/

/-- Mutation of the ticket found by the thread lookup: reset for
re-processing (`approval_status = PENDING`, `ai_processed = False`). -/
def resetForReprocessing (t : Ticket) : Ticket :=
  { t with approval_status := ApprovalStatus.PENDING.value, ai_processed := false }

/-- The duplicate check of `fetch_emails` (app/routes/tickets.py): some
ticket already stores the email's `message_id`. -/
def dedupHit (db : DB) (e : EmailData) : Bool :=
  (db.tickets.find? (fun t => t.message_id == some e.message_id)).isSome

/-- The thread-lookup filter of `fetch_emails`:
`Ticket.message_id == in_reply_to OR Ticket.thread_id == thread_id`. -/
def threadPred (e : EmailData) (t : Ticket) : Bool :=
  t.message_id == e.in_reply_to || t.thread_id == some e.thread_id

/-- The `existing_thread` lookup of `fetch_emails`: attempted *only if*
`email_data.get("in_reply_to")` is truthy. -/
def existingThread (db : DB) (e : EmailData) : Option Ticket :=
  if optStrTruthy e.in_reply_to then db.tickets.find? (threadPred e)
  else none

/-- The reply `TicketMessage` appended to an existing thread by
`fetch_emails`. -/
def replyMsg (e : EmailData) (tid : ℕ) : TicketMessage :=
  { ticket_id := tid
    sender_email := e.sender_email
    subject := e.subject
    body := e.body
    is_incoming := true
    message_id := some e.message_id
    in_reply_to := e.in_reply_to }

/-- The new `Ticket` created by `fetch_emails` for a fresh conversation
(`thread_id = email_data.get("thread_id") or email_data["message_id"]`). -/
def routeNewTicket (db : DB) (e : EmailData) : Ticket :=
  Ticket.new db.nextId e.sender_email e.subject (some e.received_at)
    (some e.message_id) e.in_reply_to (some (pyOrStr e.thread_id e.message_id))

/-- The root `TicketMessage` created by `fetch_emails` alongside a new
ticket (no `in_reply_to` keyword is passed). -/
def rootMsg (e : EmailData) (tid : ℕ) : TicketMessage :=
  { ticket_id := tid
    sender_email := e.sender_email
    subject := e.subject
    body := e.body
    is_incoming := true
    message_id := some e.message_id
    in_reply_to := none }

/-- The body of the `for email_data in emails` loop of `fetch_emails`
(app/routes/tickets.py): skip if some ticket already stores the email's
`message_id`; otherwise append a reply `TicketMessage` to the
`existing_thread` ticket (resetting it for re-processing) when the lookup
finds one; otherwise create a new `Ticket` plus its root `TicketMessage`.
`send_acknowledgment` and the Slack notification write no rows. -/
def routeIntakeStep (db : DB) (e : EmailData) : DB :=
  if dedupHit db e then db
  else
    match existingThread db e with
    | some t =>
      { db with
        tickets := updateFirstTicket db.tickets t.id resetForReprocessing
        messages := db.messages ++ [replyMsg e t.id] }
    | none =>
      { db with
        tickets := db.tickets ++ [routeNewTicket db e]
        messages := db.messages ++ [rootMsg e db.nextId]
        nextId := db.nextId + 1 }

/-- The whole intake loop of the `/tickets/fetch` route over a fetched
email list. -/
def routeIntake (db : DB) (emails : List EmailData) : DB :=
  emails.foldl routeIntakeStep db

/-! ## Intake: `_fetch_and_process_emails_sync` (scheduler_service.py) -/

/-- The body of the email loop in `_fetch_and_process_emails_sync`
(scheduler_service.py, step 2): look up an existing ticket by
`sender_email` and `subject` (no `message_id` involved); append a bare
`TicketMessage` if found, otherwise create a new `Ticket` (with *no*
`message_id`) plus a bare `TicketMessage`. -/
def schedulerIntakeStep (db : DB) (e : EmailData) : DB :=
  let msg (tid : ℕ) : TicketMessage :=
    { ticket_id := tid
      sender_email := e.sender_email
      subject := e.subject
      body := e.body
      is_incoming := true
      message_id := none
      in_reply_to := none }
  match db.tickets.find? (fun t =>
      t.sender_email == e.sender_email && t.subject == e.subject) with
  | some t => { db with messages := db.messages ++ [msg t.id] }
  | none =>
    let tid := db.nextId
    let ticket :=
      Ticket.new tid e.sender_email e.subject (some e.received_at)
        none none (some e.thread_id)
    { db with
      tickets := db.tickets ++ [ticket]
      messages := db.messages ++ [msg tid]
      nextId := tid + 1 }

/-- The whole intake loop of the scheduler over a fetched email list. -/
def schedulerIntake (db : DB) (emails : List EmailData) : DB :=
  emails.foldl schedulerIntakeStep db

/-- One intake operation, as named by the spec: a `/tickets/fetch` route
call or a scheduler cycle, each processing a fetched email list. -/
inductive IntakeOp where
  | route (emails : List EmailData)
  | sched (emails : List EmailData)

/-- Apply one intake operation to the database. -/
def applyIntakeOp (db : DB) : IntakeOp → DB
  | .route es => routeIntake db es
  | .sched es => schedulerIntake db es

/-- Apply a sequence of intake operations; the states this reaches from an
initial database are the reachable states of the intake subsystem. -/
def applyIntakeOps (db : DB) (ops : List IntakeOp) : DB :=
  ops.foldl applyIntakeOp db

/-! ## Claim C4: the priority-score formula -/

/-- The urgency weight as the spec states it
(`High:100, Medium:50, Low:10`). -/
def specUrgencyWeight (u : String) : ℤ :=
  if u = "High" then 100 else if u = "Medium" then 50 else 10

/-- The deadline bonus as the spec states it: `200` when `now` is past the
deadline, `100` when less than 2 hours remain, `50` when less than 4 hours
remain, else `0`. -/
def specDeadlineBonus (now d : ℚ) : ℤ :=
  if now > d then 200
  else if (d - now) / 3600 < 2 then 100
  else if (d - now) / 3600 < 4 then 50
  else 0

/-- The spec's score formula read literally, over exact rational
arithmetic: `urgency_weight + 2*hours_waiting + deadline_bonus +
escalation_bonus`. -/
def specPriorityScoreExact (now : ℚ) (u : String) (r d : ℚ) (esc : Bool) : ℚ :=
  (specUrgencyWeight u : ℚ) + 2 * ((now - r) / 3600)
    + (specDeadlineBonus now d : ℚ) + (if esc then 75 else 0)

/-- A concrete ticket 900 seconds (a quarter hour) old: `High` urgency,
far-future deadline, no escalation. -/
def ticketC4 : Ticket :=
  { id := 1
    sender_email := "c@example.com"
    subject := "s"
    received_at := some 0
    urgency := some "High"
    draft_response := none
    approval_status := "PENDING"
    sent_at := none
    thread_id := none
    message_id := some "m1"
    in_reply_to := none
    ai_processed := false
    escalation_required := false
    sla_deadline := some 1000000
    sla_breached := false
    priority_score := 0 }

/-- Claim C4, counterexample: a quarter hour after receipt the code scores a
`High` ticket at `100` (the 0.5-point waiting bonus is truncated away by
`int(hours_waiting * 2)`), while the spec formula read with exact
arithmetic gives `100.5`; the two disagree. -/
theorem C4_counterexample :
    ((calculate_priority_score 900 ticketC4 : ℤ) : ℚ) ≠
      specPriorityScoreExact 900 "High" 0 1000000 false := by
  have h1 : calculate_priority_score 900 ticketC4 = 100 := by
    show (if (((1000000:ℚ) - 900) / 3600) < 0 then
        (dictGetZ PRIORITY_WEIGHTS "High" 10 + intTrunc ((900 - (0:ℚ)) / 3600 * 2)) + 200
      else if (((1000000:ℚ) - 900) / 3600) < 2 then
        (dictGetZ PRIORITY_WEIGHTS "High" 10 + intTrunc ((900 - (0:ℚ)) / 3600 * 2)) + 100
      else if (((1000000:ℚ) - 900) / 3600) < 4 then
        (dictGetZ PRIORITY_WEIGHTS "High" 10 + intTrunc ((900 - (0:ℚ)) / 3600 * 2)) + 50
      else (dictGetZ PRIORITY_WEIGHTS "High" 10 + intTrunc ((900 - (0:ℚ)) / 3600 * 2))) = 100
    have hb : ¬ (((1000000:ℚ) - 900) / 3600) < 4 := by norm_num
    have hb2 : ¬ (((1000000:ℚ) - 900) / 3600) < 2 := by norm_num
    have hb0 : ¬ (((1000000:ℚ) - 900) / 3600) < 0 := by norm_num
    rw [if_neg hb0, if_neg hb2, if_neg hb]
    have harg : ((900:ℚ) - 0) / 3600 * 2 = 1/2 := by norm_num
    rw [harg]
    have : intTrunc (1/2) = 0 := by
      norm_num [intTrunc]
      decide
    rw [this]
    decide
  rw [h1]
  have h2 : specPriorityScoreExact 900 "High" 0 1000000 false = 100 + 1/2 := by
    have hb : ¬ (((1000000:ℚ) - 900) / 3600) < 4 := by norm_num
    have hb2 : ¬ (((1000000:ℚ) - 900) / 3600) < 2 := by norm_num
    have hb0 : ¬ ((900:ℚ) > 1000000) := by norm_num
    rw [specPriorityScoreExact, specDeadlineBonus, if_neg hb0, if_neg hb2, if_neg hb]
    norm_num [specUrgencyWeight]
  rw [h2]
  norm_num

/-- Claim C4 (amended): for a ticket with one of the three urgencies, a
receipt time and a deadline, the computed priority score equals
`urgency_weight(urgency) + int(2*hours_waiting) + deadline_bonus +
escalation_bonus`, with the waiting-time term truncated toward zero by
Python `int()`, the weights `High:100, Medium:50, Low:10`, the deadline
bonus `200` past the deadline, `100` under 2 remaining hours, `50` under 4,
else `0`, and the escalation bonus `75` exactly when the flag is set. -/
theorem C4_priority_score_formula (now r d : ℚ) (esc : Bool) (u : String)
    (t : Ticket)
    (hu : u = "High" ∨ u = "Medium" ∨ u = "Low")
    (hurg : t.urgency = some u) (hrec : t.received_at = some r)
    (hdl : t.sla_deadline = some d) (hesc : t.escalation_required = esc) :
    calculate_priority_score now t =
      specUrgencyWeight u + intTrunc (2 * ((now - r) / 3600))
        + specDeadlineBonus now d + (if esc then 75 else 0) := by
  have hne : ¬ u = "" := by rcases hu with h | h | h <;> subst h <;> decide
  have hw : dictGetZ PRIORITY_WEIGHTS u 10 = specUrgencyWeight u := by
    rcases hu with h | h | h <;> subst h <;> decide
  have harg : (now - r) / 3600 * 2 = 2 * ((now - r) / 3600) := by ring
  have h0 : (d - now) / 3600 < 0 ↔ now > d := by
    rw [div_lt_iff₀ (by norm_num : (0:ℚ) < 3600)]
    constructor <;> intro h <;> linarith
  have key :
      (if (d - now) / 3600 < 0 then
        ((if u = "" then (10:ℤ) else dictGetZ PRIORITY_WEIGHTS u 10)
          + intTrunc ((now - r) / 3600 * 2)) + 200
      else if (d - now) / 3600 < 2 then
        ((if u = "" then 10 else dictGetZ PRIORITY_WEIGHTS u 10)
          + intTrunc ((now - r) / 3600 * 2)) + 100
      else if (d - now) / 3600 < 4 then
        ((if u = "" then 10 else dictGetZ PRIORITY_WEIGHTS u 10)
          + intTrunc ((now - r) / 3600 * 2)) + 50
      else ((if u = "" then 10 else dictGetZ PRIORITY_WEIGHTS u 10)
          + intTrunc ((now - r) / 3600 * 2)))
      = specUrgencyWeight u + intTrunc (2 * ((now - r) / 3600))
          + specDeadlineBonus now d := by
    rw [if_neg hne, hw, harg, specDeadlineBonus]
    by_cases hc0 : (d - now) / 3600 < 0
    · rw [if_pos hc0, if_pos (h0.mp hc0)]
    · rw [if_neg hc0, if_neg (fun hgt => hc0 (h0.mpr hgt))]
      by_cases hc2 : (d - now) / 3600 < 2
      · rw [if_pos hc2, if_pos hc2]
      · rw [if_neg hc2, if_neg hc2]
        by_cases hc4 : (d - now) / 3600 < 4
        · rw [if_pos hc4, if_pos hc4]
        · rw [if_neg hc4, if_neg hc4]
          ring
  obtain ⟨id, se, su, ra, ur, dr, as_, sa, th, mi, ir, ai, ec, dl, br, ps⟩ := t
  simp only at hurg hrec hdl hesc
  subst hurg hrec hdl hesc
  cases ec with
  | false =>
    show (if (d - now) / 3600 < 0 then
        ((if u = "" then (10:ℤ) else dictGetZ PRIORITY_WEIGHTS u 10)
          + intTrunc ((now - r) / 3600 * 2)) + 200
      else if (d - now) / 3600 < 2 then
        ((if u = "" then 10 else dictGetZ PRIORITY_WEIGHTS u 10)
          + intTrunc ((now - r) / 3600 * 2)) + 100
      else if (d - now) / 3600 < 4 then
        ((if u = "" then 10 else dictGetZ PRIORITY_WEIGHTS u 10)
          + intTrunc ((now - r) / 3600 * 2)) + 50
      else ((if u = "" then 10 else dictGetZ PRIORITY_WEIGHTS u 10)
          + intTrunc ((now - r) / 3600 * 2)))
      = specUrgencyWeight u + intTrunc (2 * ((now - r) / 3600))
          + specDeadlineBonus now d + 0
    rw [key]
    ring
  | true =>
    show (if (d - now) / 3600 < 0 then
        ((if u = "" then (10:ℤ) else dictGetZ PRIORITY_WEIGHTS u 10)
          + intTrunc ((now - r) / 3600 * 2)) + 200
      else if (d - now) / 3600 < 2 then
        ((if u = "" then 10 else dictGetZ PRIORITY_WEIGHTS u 10)
          + intTrunc ((now - r) / 3600 * 2)) + 100
      else if (d - now) / 3600 < 4 then
        ((if u = "" then 10 else dictGetZ PRIORITY_WEIGHTS u 10)
          + intTrunc ((now - r) / 3600 * 2)) + 50
      else ((if u = "" then 10 else dictGetZ PRIORITY_WEIGHTS u 10)
          + intTrunc ((now - r) / 3600 * 2))) + 75
      = specUrgencyWeight u + intTrunc (2 * ((now - r) / 3600))
          + specDeadlineBonus now d + 75
    rw [key]

/-- Witness for C4: the amended formula instantiated on `ticketC4`. -/
theorem C4_priority_score_formula_witness :
    calculate_priority_score 900 ticketC4 =
      specUrgencyWeight "High" + intTrunc (2 * ((900 - 0) / 3600))
        + specDeadlineBonus 900 1000000 + (if false then 75 else 0) :=
  C4_priority_score_formula 900 0 1000000 false "High" ticketC4
    (Or.inl rfl) rfl rfl rfl rfl

/-! ## Claim C7: the SLA deadline -/

/-- Claim C7: for any settings whose `sla_hours_*` rows parse, the deadline of
a `High`/`Medium`/`Low` ticket is `received_at` plus the configured hours
for that urgency; and when no `sla_hours_*` override rows exist at all the
configured hours are the defaults `High = 4`, `Medium = 8`, `Low = 24`. -/
theorem C7_sla_deadline (settings : List SettingsRow) (u : String) (r : ℚ)
    (hu : u = "High" ∨ u = "Medium" ∨ u = "Low") :
    (∀ hml : SlaHours, get_sla_hours settings = some hml →
      calculate_sla_deadline settings (some u) r =
        some (r + 3600 * ((if u = "High" then hml.high
          else if u = "Medium" then hml.medium else hml.low) : ℚ)))
    ∧ (settingsGet settings "sla_hours_high" = none →
       settingsGet settings "sla_hours_medium" = none →
       settingsGet settings "sla_hours_low" = none →
       calculate_sla_deadline settings (some u) r =
         some (r + 3600 * ((if u = "High" then 4
           else if u = "Medium" then 8 else 24) : ℚ))) := by
  constructor
  · intro hml hparse
    rw [calculate_sla_deadline, hparse, Option.map_some']
    rcases hu with h | h | h <;> subst h <;>
      simp [deadlineFromHours, slaHoursFor]
  · intro hh hm hl
    have hparse : get_sla_hours settings = some ⟨4, 8, 24⟩ := by
      rw [get_sla_hours]
      rw [settingIntOr, hh, settingIntOr, hm, settingIntOr, hl]
      rfl
    rw [calculate_sla_deadline, hparse, Option.map_some']
    rcases hu with h | h | h <;> subst h <;>
      simp [deadlineFromHours, slaHoursFor]

/-- Witness for C7: with no settings rows at all, a `Medium` ticket received
at time `100` gets the default 8-hour deadline. -/
theorem C7_sla_deadline_witness :
    (∀ hml : SlaHours, get_sla_hours [] = some hml →
      calculate_sla_deadline [] (some "Medium") 100 =
        some (100 + 3600 * ((if "Medium" = "High" then hml.high
          else if "Medium" = "Medium" then hml.medium else hml.low) : ℚ)))
    ∧ (settingsGet [] "sla_hours_high" = none →
       settingsGet [] "sla_hours_medium" = none →
       settingsGet [] "sla_hours_low" = none →
       calculate_sla_deadline [] (some "Medium") 100 =
         some (100 + 3600 * ((if "Medium" = "High" then 4
           else if "Medium" = "Medium" then 8 else 24) : ℚ))) :=
  C7_sla_deadline [] "Medium" 100 (Or.inr (Or.inl rfl))

/-! ## Claim C10: totality in the urgency value -/

/-- Claim C10: for a ticket whose urgency is `None` or any string other than
`High`/`Medium`/`Low`, the priority score is computed with base weight 10 —
it equals the score of the same ticket with urgency `Low` — and the SLA
deadline (whenever the settings parse, for any settings at all) is
`received_at + 24` hours; neither computation can fail on the urgency. -/
theorem C10_unrecognized_urgency_total (settings : List SettingsRow)
    (now r : ℚ) (t : Ticket)
    (hu : ∀ s, t.urgency = some s → s ≠ "High" ∧ s ≠ "Medium" ∧ s ≠ "Low") :
    calculate_priority_score now t
      = calculate_priority_score now { t with urgency := some "Low" }
    ∧ ∀ hml : SlaHours, get_sla_hours settings = some hml →
        calculate_sla_deadline settings t.urgency r
          = some (r + 3600 * (24 : ℚ)) := by
  constructor
  · obtain ⟨id, se, su, ra, ur, dr, as_, sa, th, mi, ir, ai, ec, dl, br, ps⟩ := t
    rcases ur with _ | s
    · simp [calculate_priority_score, dictGetZ, PRIORITY_WEIGHTS]
    · obtain ⟨h1, h2, h3⟩ := hu s rfl
      have e1 : (("High" : String) == s) = false := by
        simp [Ne.symm h1]
      have e2 : (("Medium" : String) == s) = false := by
        simp [Ne.symm h2]
      have e3 : (("Low" : String) == s) = false := by
        simp [Ne.symm h3]
      simp [calculate_priority_score, dictGetZ, PRIORITY_WEIGHTS, List.find?,
        e1, e2, e3]
  · intro hml hparse
    rw [calculate_sla_deadline, hparse, Option.map_some']
    rcases h : t.urgency with _ | s
    · simp [deadlineFromHours, slaHoursFor]
    · obtain ⟨h1, h2, h3⟩ := hu s h
      simp [deadlineFromHours, slaHoursFor, h1, h2, h3]

/-- A concrete ticket with the unrecognized urgency `"Critical"`. -/
def ticketC10 : Ticket :=
  { ticketC4 with urgency := some "Critical" }

/-- Witness for C10: the totality theorem instantiated on a ticket with
urgency `"Critical"` and empty settings. -/
theorem C10_unrecognized_urgency_total_witness :
    calculate_priority_score 900 ticketC10
      = calculate_priority_score 900 { ticketC10 with urgency := some "Low" }
    ∧ ∀ hml : SlaHours, get_sla_hours [] = some hml →
        calculate_sla_deadline [] ticketC10.urgency 0
          = some (0 + 3600 * (24 : ℚ)) :=
  C10_unrecognized_urgency_total [] 900 0 ticketC10
    (fun s hs => by
      simp [ticketC10, ticketC4] at hs
      subst hs
      refine ⟨by decide, by decide, by decide⟩)

/-! ## Claim C1: the approval gate -/

/-- Claim C1: `send_approved_response` attempts an SMTP send exactly when the
ticket exists, its approval status is `APPROVED` and its draft response is
non-empty; in every other case it returns `false`, attempts no send, and
leaves the database unchanged. When the guard holds, exactly one send is
attempted, the returned boolean is the SMTP result, and a failed send also
leaves the database unchanged (so `sent_at` is only ever set after a
successful, human-approved send). -/
theorem C1_approval_gate (db : DB) (tid : ℕ) (now : ℚ) (smtpOk : Bool)
    (r : Bool) (db' : DB) (sends : List OutgoingEmail)
    (h : send_approved_response db tid now smtpOk = (r, db', sends)) :
    (sendGuard db tid = false → r = false ∧ db' = db ∧ sends = [])
    ∧ (sendGuard db tid = true →
        sends.length = 1 ∧ r = smtpOk ∧ (smtpOk = false → db' = db)) := by
  unfold send_approved_response at h
  unfold sendGuard
  rcases hf : db.tickets.find? (fun t => t.id == tid) with _ | t
  · simp only [hf] at h
    simp only [hf]
    obtain ⟨h1, h2, h3⟩ : false = r ∧ db = db' ∧ ([] : List OutgoingEmail) = sends := by
      simpa [Prod.ext_iff] using h
    exact ⟨fun _ => ⟨h1.symm, h2.symm, h3.symm⟩, fun hg => by simp at hg⟩
  · simp only [hf] at h
    simp only [hf]
    by_cases hstat : t.approval_status = ApprovalStatus.APPROVED.value
    · by_cases hdraft : optStrTruthy t.draft_response = true
      · rw [if_neg (fun hne => hne hstat), if_neg (by simp [hdraft])] at h
        have hguard :
            (t.approval_status == ApprovalStatus.APPROVED.value
              && optStrTruthy t.draft_response) = true := by
          simp [hstat, hdraft]
        rw [hguard]
        refine ⟨fun hg => by simp at hg, fun _ => ?_⟩
        cases smtpOk
        · obtain ⟨h1, h2, h3⟩ :
              false = r ∧ db = db' ∧ _ = sends := by
            simpa [Prod.ext_iff] using h
          exact ⟨by rw [← h3]; rfl, h1.symm, fun _ => h2.symm⟩
        · obtain ⟨h1, h2, h3⟩ :
              true = r ∧ _ = db' ∧ _ = sends := by
            simpa [Prod.ext_iff] using h
          exact ⟨by rw [← h3]; rfl, h1.symm, fun hc => by cases hc⟩
      · rw [if_neg (fun hne => hne hstat), if_pos (by simpa using hdraft)] at h
        have hguard :
            (t.approval_status == ApprovalStatus.APPROVED.value
              && optStrTruthy t.draft_response) = false := by
          simp [hstat]
          simpa using hdraft
        rw [hguard]
        obtain ⟨h1, h2, h3⟩ : false = r ∧ db = db' ∧ ([] : List OutgoingEmail) = sends := by
          simpa [Prod.ext_iff] using h
        exact ⟨fun _ => ⟨h1.symm, h2.symm, h3.symm⟩, fun hg => by cases hg⟩
    · rw [if_pos hstat] at h
      have hguard :
          (t.approval_status == ApprovalStatus.APPROVED.value
            && optStrTruthy t.draft_response) = false := by
        simp [hstat]
      rw [hguard]
      obtain ⟨h1, h2, h3⟩ : false = r ∧ db = db' ∧ ([] : List OutgoingEmail) = sends := by
        simpa [Prod.ext_iff] using h
      exact ⟨fun _ => ⟨h1.symm, h2.symm, h3.symm⟩, fun hg => by cases hg⟩

/-- A concrete approved ticket with a draft, for exercising the gate. -/
def dbC1 : DB :=
  { tickets := [{ id := 1
                  sender_email := "cust@example.com"
                  subject := "Printer"
                  received_at := some 0
                  urgency := none
                  draft_response := some "We can help."
                  approval_status := "APPROVED"
                  sent_at := none
                  thread_id := none
                  message_id := some "mid-1"
                  in_reply_to := none
                  ai_processed := true
                  escalation_required := false
                  sla_deadline := none
                  sla_breached := false
                  priority_score := 0 }]
    messages := []
    settings := []
    nextId := 2 }

/-- Witness for C1: the gate theorem instantiated on `dbC1`, ticket 1, a
successful SMTP send. -/
theorem C1_approval_gate_witness :
    (sendGuard dbC1 1 = false →
      (send_approved_response dbC1 1 5 true).1 = false
        ∧ (send_approved_response dbC1 1 5 true).2.1 = dbC1
        ∧ (send_approved_response dbC1 1 5 true).2.2 = [])
    ∧ (sendGuard dbC1 1 = true →
      (send_approved_response dbC1 1 5 true).2.2.length = 1
        ∧ (send_approved_response dbC1 1 5 true).1 = true
        ∧ (true = false → (send_approved_response dbC1 1 5 true).2.1 = dbC1)) :=
  C1_approval_gate dbC1 1 5 true _ _ _ rfl

/-! ## Claim C5: the breach flag -/

/-- Settings that raise the `High` SLA window to 100 hours. -/
def settingsC5 : List SettingsRow := [("sla_hours_high", "100")]

/-- A `High` ticket received at time 0 whose old 4-hour deadline (14400) has
passed and whose breach flag is already set. -/
def ticketC5 : Ticket :=
  { id := 1
    sender_email := "a@b.example"
    subject := "s"
    received_at := some 0
    urgency := some "High"
    draft_response := none
    approval_status := "PENDING"
    sent_at := none
    thread_id := none
    message_id := some "m5"
    in_reply_to := none
    ai_processed := false
    escalation_required := false
    sla_deadline := some 14400
    sla_breached := true
    priority_score := 0 }

/-- The database holding just `ticketC5` under `settingsC5`. -/
def dbC5 : DB :=
  { tickets := [ticketC5], messages := [], settings := settingsC5, nextId := 2 }

/-- Claim C5, counterexample: `ticketC5` is unsent and breached, yet after the
SLA window is raised to 100 hours a recomputation at `now = 20000` (past the
old deadline, before the new one) clears `sla_breached` back to `false` —
the flag does not latch. -/
theorem C5_counterexample :
    ticketC5.sla_breached = true ∧ ticketC5.sent_at = none ∧
    (update_all_sla_status settingsC5 20000 dbC5).map
        (fun d => d.tickets.map Ticket.sla_breached) = some [false] := by
  refine ⟨rfl, rfl, ?_⟩
  have hml : get_sla_hours settingsC5 = some ⟨100, 8, 24⟩ := rfl
  simp only [update_all_sla_status, hml, Option.map_some']
  norm_num [dbC5, ticketC5, isPendingRow, slaRecalcStep, deadlineFromHours,
    slaHoursFor, optStrTruthy]
  simp

/-- Claim C5 (amended): an SLA update marks a not-yet-sent ticket breached
once `now` exceeds its (freshly recomputed) deadline, and `update_ticket_sla`
never clears the flag; but `update_all_sla_status` re-derives the flag for
every pending ticket with a truthy urgency and a receipt time — afterwards
it equals `now > recomputed deadline` — so a recomputation whose new
deadline lies beyond `now` (e.g. after the SLA hours settings grew) clears
`sla_breached` back to `false`. -/
theorem C5_breach_flag (settings : List SettingsRow) (hml : SlaHours)
    (now : ℚ) (hparse : get_sla_hours settings = some hml) :
    (∀ t t', update_ticket_sla settings now t = some t' →
        (t.sla_breached = true → t'.sla_breached = true)
      ∧ (t.sent_at = none → ∀ d, t'.sla_deadline = some d → now > d →
          t'.sla_breached = true))
    ∧ (∀ db db', update_all_sla_status settings now db = some db' →
        db'.tickets = db.tickets.map (fun t =>
          if isPendingRow t then slaRecalcStep hml now t else t))
    ∧ (∀ t r, optStrTruthy t.urgency = true → t.received_at = some r →
        (slaRecalcStep hml now t).sla_breached
          = decide (now > deadlineFromHours hml t.urgency r)) := by
  refine ⟨?_, ?_, ?_⟩
  · intro t t' h
    obtain ⟨id, se, su, ra, ur, dr, as_, sa, th, mi, ir, ai, ec, dl, br, ps⟩ := t
    rcases ra with _ | r0
    · simp only [update_ticket_sla, Option.map_some', Option.some.injEq] at h
      subst h
      rcases dl with _ | d0
      · exact ⟨fun hb => hb, fun _ d hd => by cases hd⟩
      · constructor
        · intro hb
          simp only at hb ⊢
          split <;> (try split) <;> simp_all
        · intro hsent d hd hgt
          simp only at hsent hd ⊢
          subst hsent
          split <;> (try split) <;> simp_all
    · by_cases hu : optStrTruthy ur = true
      · simp only [update_ticket_sla, calculate_sla_deadline, hparse,
          Option.map_some'] at h
        rw [if_pos hu] at h
        simp only [Option.map_some', Option.some.injEq] at h
        subst h
        constructor
        · intro hb
          simp only at hb ⊢
          split <;> (try split) <;> simp_all
        · intro hsent d hd hgt
          simp only at hsent hd ⊢
          subst hsent
          split <;> (try split) <;> simp_all
      · simp only [update_ticket_sla, calculate_sla_deadline, hparse,
          Option.map_some'] at h
        rw [if_neg hu] at h
        simp only [Option.map_some', Option.some.injEq] at h
        subst h
        rcases dl with _ | d0
        · exact ⟨fun hb => hb, fun _ d hd => by cases hd⟩
        · constructor
          · intro hb
            simp only at hb ⊢
            split <;> (try split) <;> simp_all
          · intro hsent d hd hgt
            simp only at hsent hd ⊢
            subst hsent
            split <;> (try split) <;> simp_all
  · intro db db' h
    simp only [update_all_sla_status, hparse, Option.map_some',
      Option.some.injEq] at h
    rw [← h]
  · intro t r hu hr
    obtain ⟨id, se, su, ra, ur, dr, as_, sa, th, mi, ir, ai, ec, dl, br, ps⟩ := t
    simp only at hu hr
    subst hr
    simp only [slaRecalcStep, hu, if_pos]
    split <;> simp_all

/-! ## Claim C2: idempotence of the route intake under re-fetch -/

theorem resetForReprocessing_message_id (t : Ticket) :
    (resetForReprocessing t).message_id = t.message_id := rfl

theorem resetForReprocessing_thread_id (t : Ticket) :
    (resetForReprocessing t).thread_id = t.thread_id := rfl

theorem updateFirstTicket_length (l : List Ticket) (tid : ℕ)
    (f : Ticket → Ticket) :
    (updateFirstTicket l tid f).length = l.length := by
  induction l with
  | nil => rfl
  | cons t ts ih =>
    by_cases h : (t.id == tid) = true
    · simp [updateFirstTicket, h]
    · simp [updateFirstTicket, h, ih]

theorem find?_isSome_updateFirstTicket (p : Ticket → Bool) (l : List Ticket)
    (tid : ℕ) (f : Ticket → Ticket) (hp : ∀ t, p (f t) = p t) :
    ((updateFirstTicket l tid f).find? p).isSome = (l.find? p).isSome := by
  induction l with
  | nil => rfl
  | cons t ts ih =>
    by_cases h : (t.id == tid) = true
    · simp only [updateFirstTicket, h, if_pos]
      rw [List.find?_cons, List.find?_cons, hp t]
      cases p t <;> simp
    · simp only [updateFirstTicket, h, if_neg, Bool.not_eq_true]
      rw [List.find?_cons, List.find?_cons]
      cases hv : p t <;> simp [ih]

theorem find?_isSome_append_left {α : Type} (p : α → Bool) (l l' : List α)
    (h : (l.find? p).isSome = true) :
    ((l ++ l').find? p).isSome = true := by
  rw [List.find?_append]
  rcases hf : l.find? p with _ | x
  · rw [hf] at h
    cases h
  · simp

/-- An email the route intake will not create a new ticket for: its
`message_id` is already on a ticket, or its thread lookup succeeds. -/
def handled (db : DB) (e : EmailData) : Bool :=
  dedupHit db e || (optStrTruthy e.in_reply_to
    && (db.tickets.find? (threadPred e)).isSome)

theorem handled_routeIntakeStep (db : DB) (e e' : EmailData)
    (h : handled db e' = true) :
    handled (routeIntakeStep db e) e' = true := by
  unfold routeIntakeStep
  by_cases hdup : dedupHit db e = true
  · rw [if_pos hdup]
    exact h
  · rw [if_neg hdup]
    rcases het : existingThread db e with _ | t
    · -- create branch: tickets grow by appending
      unfold handled dedupHit at h ⊢
      simp only at h ⊢
      rcases Bool.or_eq_true_iff.mp h with h1 | h1
      · exact Bool.or_eq_true_iff.mpr (Or.inl (find?_isSome_append_left _ _ _ h1))
      · rcases Bool.and_eq_true_iff.mp h1 with ⟨h2, h3⟩
        exact Bool.or_eq_true_iff.mpr (Or.inr (Bool.and_eq_true_iff.mpr
          ⟨h2, find?_isSome_append_left _ _ _ h3⟩))
    · -- reply branch: ticket ids/message ids/thread ids unchanged
      unfold handled dedupHit at h ⊢
      simp only at h ⊢
      rw [find?_isSome_updateFirstTicket
            (fun u => u.message_id == some e'.message_id) db.tickets t.id
            resetForReprocessing (fun u => rfl),
          find?_isSome_updateFirstTicket (threadPred e') db.tickets t.id
            resetForReprocessing (fun u => rfl)]
      exact h

theorem handled_routeIntakeStep_self (db : DB) (e : EmailData) :
    handled (routeIntakeStep db e) e = true := by
  unfold routeIntakeStep
  by_cases hdup : dedupHit db e = true
  · rw [if_pos hdup]
    exact Bool.or_eq_true_iff.mpr (Or.inl hdup)
  · rw [if_neg hdup]
    rcases het : existingThread db e with _ | t
    · -- create branch: the new ticket carries the email's message_id
      unfold handled dedupHit
      simp only
      refine Bool.or_eq_true_iff.mpr (Or.inl ?_)
      rw [List.find?_append]
      rcases hf : List.find? (fun t => t.message_id == some e.message_id)
          db.tickets with _ | x
      · rw [hf, Option.none_or]
        simp [List.find?, routeNewTicket, Ticket.new]
      · rw [hf]
        rfl
    · -- reply branch: the thread lookup still succeeds
      unfold existingThread at het
      by_cases hirt : optStrTruthy e.in_reply_to = true
      · rw [if_pos hirt] at het
        unfold handled
        simp only
        refine Bool.or_eq_true_iff.mpr (Or.inr (Bool.and_eq_true_iff.mpr
          ⟨hirt, ?_⟩))
        rw [find?_isSome_updateFirstTicket (threadPred e) db.tickets t.id
          resetForReprocessing (fun u => rfl), het]
        rfl
      · rw [if_neg hirt] at het
        cases het

theorem handled_routeIntake (db : DB) (es : List EmailData) (e : EmailData)
    (h : handled db e = true) :
    handled (routeIntake db es) e = true := by
  induction es generalizing db with
  | nil => exact h
  | cons e' rest ih => exact ih _ (handled_routeIntakeStep db e' e h)

theorem routeIntake_handles_all (db : DB) (es : List EmailData) :
    ∀ e ∈ es, handled (routeIntake db es) e = true := by
  induction es generalizing db with
  | nil => intro e he; cases he
  | cons e' rest ih =>
    intro e he
    rcases List.mem_cons.mp he with rfl | hmem
    · exact handled_routeIntake _ rest e (handled_routeIntakeStep_self db e)
    · exact ih (routeIntakeStep db e') e hmem

theorem routeIntakeStep_length_of_handled (db : DB) (e : EmailData)
    (h : handled db e = true) :
    (routeIntakeStep db e).tickets.length = db.tickets.length := by
  unfold routeIntakeStep
  by_cases hdup : dedupHit db e = true
  · rw [if_pos hdup]
  · rw [if_neg hdup]
    rcases Bool.or_eq_true_iff.mp h with h1 | h1
    · exact absurd h1 hdup
    · rcases Bool.and_eq_true_iff.mp h1 with ⟨h2, h3⟩
      rcases het : existingThread db e with _ | t
      · unfold existingThread at het
        rw [if_pos h2] at het
        rw [het] at h3
        cases h3
      · simp only
        exact updateFirstTicket_length _ _ _

theorem routeIntake_length_of_all_handled (db : DB) (es : List EmailData)
    (h : ∀ e ∈ es, handled db e = true) :
    (routeIntake db es).tickets.length = db.tickets.length := by
  induction es generalizing db with
  | nil => rfl
  | cons e rest ih =>
    have hstep := routeIntakeStep_length_of_handled db e (h e (by simp))
    have hrest : ∀ e' ∈ rest, handled (routeIntakeStep db e) e' = true :=
      fun e' he' => handled_routeIntakeStep db e e' (h e' (by simp [he']))
    calc (routeIntake (routeIntakeStep db e) rest).tickets.length
        = (routeIntakeStep db e).tickets.length := ih _ hrest
      _ = db.tickets.length := hstep

/-- Claim C2 (amended): the route intake skips any email whose `message_id`
is already stored on a ticket, and running the route intake a second time
on the same email list creates no new `Ticket` — but it is not
message-level idempotent: a reply appended to an existing thread stores its
`message_id` only on the `TicketMessage`, so a re-fetch appends it again
(see the counterexample), and the scheduler intake does not deduplicate by
`message_id` at all. -/
theorem C2_route_refetch_no_new_tickets (db : DB) (es : List EmailData) :
    (∀ e : EmailData, dedupHit db e = true → routeIntakeStep db e = db)
    ∧ (routeIntake (routeIntake db es) es).tickets.length
        = (routeIntake db es).tickets.length := by
  constructor
  · intro e h
    unfold routeIntakeStep
    rw [if_pos h]
  · exact routeIntake_length_of_all_handled _ es (routeIntake_handles_all db es)

/-- An already-imported root ticket for the C2 scenario. -/
def ticketC2 : Ticket :=
  Ticket.new 1 "c@example.org" "Hi" (some 0) (some "m0") none (some "m0")

/-- Database already holding `ticketC2`. -/
def dbC2 : DB :=
  { tickets := [ticketC2], messages := [], settings := [], nextId := 2 }

/-- A customer reply to `ticketC2` (its `In-Reply-To` is the ticket's
`message_id`). -/
def emailC2 : EmailData :=
  { sender_email := "c@example.org"
    subject := "Re: Hi"
    body := "any update?"
    message_id := "m1"
    in_reply_to := some "m0"
    thread_id := "m0"
    received_at := 100 }

/-- Claim C2, counterexample: feeding the same one-element email list to the
route intake twice appends the reply `TicketMessage` twice — the second
run creates a new `TicketMessage`, contradicting the claimed idempotence. -/
theorem C2_counterexample :
    (routeIntake dbC2 [emailC2]).messages.length = 1
    ∧ (routeIntake (routeIntake dbC2 [emailC2]) [emailC2]).messages.length = 2 := by
  constructor <;> rfl

/-- Witness for C2: the amended theorem applied to `dbC2` and the
one-reply list, with the skip clause exercised on an email duplicating
`ticketC2`'s `message_id`. -/
theorem C2_route_refetch_no_new_tickets_witness :
    routeIntakeStep dbC2 { emailC2 with message_id := "m0" } = dbC2
    ∧ (routeIntake (routeIntake dbC2 [emailC2]) [emailC2]).tickets.length
        = (routeIntake dbC2 [emailC2]).tickets.length :=
  ⟨(C2_route_refetch_no_new_tickets dbC2 [emailC2]).1
      { emailC2 with message_id := "m0" } rfl,
    (C2_route_refetch_no_new_tickets dbC2 [emailC2]).2⟩

/-- Witness for C5: the re-derivation clause applied to `ticketC5` under
`settingsC5` at `now = 20000`. -/
theorem C5_breach_flag_witness :
    (slaRecalcStep ⟨100, 8, 24⟩ 20000 ticketC5).sla_breached
      = decide ((20000 : ℚ)
          > deadlineFromHours ⟨100, 8, 24⟩ ticketC5.urgency 0) :=
  (C5_breach_flag settingsC5 ⟨100, 8, 24⟩ 20000 rfl).2.2 ticketC5 0 rfl rfl

/-! ## Claim C3: thread matching -/

/-- The raw headers of a reply that carries a `References` chain naming the
existing thread root but no `In-Reply-To` header. -/
def rawC3 : RawEmail :=
  { sender_email := "c@example.org"
    subject := "Re: Hi"
    body := "following up"
    message_id_header := "<m1>"
    in_reply_to_header := none
    references_tokens := ["<m0>"]
    received_at := 100 }

/-- The existing root ticket of the thread the C3 reply belongs to. -/
def ticketC3 : Ticket :=
  Ticket.new 1 "c@example.org" "Hi" (some 0) (some "m0") none (some "m0")

/-- Database already holding `ticketC3`. -/
def dbC3 : DB :=
  { tickets := [ticketC3], messages := [], settings := [], nextId := 2 }

/-- Claim C3, counterexample: `rawC3` computes `thread_id = "m0"` from its
`References` chain and matches `ticketC3` by `thread_id`, yet because it
has no `In-Reply-To` header the route intake performs no thread lookup at
all: it creates a second ticket instead of appending a `TicketMessage` to
ticket 1. -/
theorem C3_counterexample :
    (assembleEmail rawC3).thread_id = "m0"
    ∧ (assembleEmail rawC3).in_reply_to = none
    ∧ threadPred (assembleEmail rawC3) ticketC3 = true
    ∧ (routeIntakeStep dbC3 (assembleEmail rawC3)).tickets.length
        = dbC3.tickets.length + 1
    ∧ (routeIntakeStep dbC3 (assembleEmail rawC3)).messages.filter
        (fun m => m.ticket_id == 1) = [] := by
  refine ⟨rfl, rfl, rfl, rfl, rfl⟩

/-- Claim C3 (amended): the thread lookup happens *only when* the email has a
truthy `in_reply_to`; in that case, whenever a ticket matches
`message_id == in_reply_to OR thread_id == thread_id`, the intake appends a
`TicketMessage` to the first such ticket and resets it to
`PENDING`/unprocessed instead of creating a new ticket. An email carrying
only a `References` chain is treated as a fresh conversation. -/
theorem C3_thread_matching (db : DB) (e : EmailData) (t : Ticket)
    (hdup : dedupHit db e = false)
    (hirt : optStrTruthy e.in_reply_to = true)
    (hfind : db.tickets.find? (threadPred e) = some t) :
    (routeIntakeStep db e).tickets
        = updateFirstTicket db.tickets t.id resetForReprocessing
    ∧ (routeIntakeStep db e).tickets.length = db.tickets.length
    ∧ (routeIntakeStep db e).messages = db.messages ++ [replyMsg e t.id]
    ∧ (∀ u : Ticket,
        (resetForReprocessing u).approval_status = ApprovalStatus.PENDING.value
        ∧ (resetForReprocessing u).ai_processed = false) := by
  have hstep : routeIntakeStep db e =
      { db with
        tickets := updateFirstTicket db.tickets t.id resetForReprocessing
        messages := db.messages ++ [replyMsg e t.id] } := by
    unfold routeIntakeStep
    rw [if_neg (by rw [hdup]; exact Bool.false_ne_true)]
    unfold existingThread
    rw [if_pos hirt, hfind]
  rw [hstep]
  exact ⟨rfl, updateFirstTicket_length _ _ _, rfl, fun u => ⟨rfl, rfl⟩⟩

/-- Witness for C3: the amended theorem applied to `dbC2` and the reply
`emailC2`, which does carry an `In-Reply-To` header. -/
theorem C3_thread_matching_witness :
    (routeIntakeStep dbC2 emailC2).tickets
        = updateFirstTicket dbC2.tickets ticketC2.id resetForReprocessing
    ∧ (routeIntakeStep dbC2 emailC2).tickets.length = dbC2.tickets.length
    ∧ (routeIntakeStep dbC2 emailC2).messages
        = dbC2.messages ++ [replyMsg emailC2 ticketC2.id]
    ∧ (∀ u : Ticket,
        (resetForReprocessing u).approval_status = ApprovalStatus.PENDING.value
        ∧ (resetForReprocessing u).ai_processed = false) :=
  C3_thread_matching dbC2 emailC2 ticketC2 rfl rfl rfl

/-! ## Claim C6: uniqueness of `message_id` across tickets -/

/-- No two ticket rows carry the same non-null `message_id`. -/
def UniqueMsgIds (db : DB) : Prop :=
  db.tickets.Pairwise (fun a b =>
    a.message_id = none ∨ a.message_id ≠ b.message_id)

theorem mem_updateFirstTicket (l : List Ticket) (tid : ℕ)
    (f : Ticket → Ticket) (b : Ticket) (hb : b ∈ updateFirstTicket l tid f) :
    ∃ a ∈ l, b = a ∨ b = f a := by
  induction l with
  | nil => cases hb
  | cons t ts ih =>
    by_cases h : (t.id == tid) = true
    · rw [updateFirstTicket, if_pos h] at hb
      rcases List.mem_cons.mp hb with rfl | hmem
      · exact ⟨t, by simp, Or.inr rfl⟩
      · exact ⟨b, by simp [hmem], Or.inl rfl⟩
    · rw [updateFirstTicket, if_neg h] at hb
      rcases List.mem_cons.mp hb with rfl | hmem
      · exact ⟨b, by simp, Or.inl rfl⟩
      · obtain ⟨a, ha, hor⟩ := ih hmem
        exact ⟨a, by simp [ha], hor⟩

theorem pairwise_updateFirstTicket_reset (l : List Ticket) (tid : ℕ)
    (h : l.Pairwise (fun a b =>
      a.message_id = none ∨ a.message_id ≠ b.message_id)) :
    (updateFirstTicket l tid resetForReprocessing).Pairwise (fun a b =>
      a.message_id = none ∨ a.message_id ≠ b.message_id) := by
  induction l with
  | nil => exact List.Pairwise.nil
  | cons t ts ih =>
    rcases h with _ | ⟨hhead, htail⟩
    by_cases h : (t.id == tid) = true
    · rw [updateFirstTicket, if_pos h]
      exact List.Pairwise.cons (fun b hb => hhead b hb) htail
    · rw [updateFirstTicket, if_neg h]
      refine List.Pairwise.cons (fun b hb => ?_) (ih htail)
      obtain ⟨a, ha, hor⟩ := mem_updateFirstTicket ts tid _ b hb
      rcases hor with h2 | h2
      · rw [h2]
        exact hhead a ha
      · rw [h2]
        exact hhead a ha

theorem uniqueMsgIds_routeIntakeStep (db : DB) (e : EmailData)
    (h : UniqueMsgIds db) : UniqueMsgIds (routeIntakeStep db e) := by
  unfold routeIntakeStep
  by_cases hdup : dedupHit db e = true
  · rw [if_pos hdup]
    exact h
  · rw [if_neg hdup]
    rcases het : existingThread db e with _ | t
    · -- create: the fresh ticket's message_id clashes with no stored one
      unfold UniqueMsgIds
      simp only
      rw [List.pairwise_append]
      refine ⟨h, List.pairwise_singleton _ _, ?_⟩
      intro a ha b hb
      rcases List.mem_singleton.mp hb with rfl
      have hnone : List.find? (fun t => t.message_id == some e.message_id)
          db.tickets = none := by
        unfold dedupHit at hdup
        rcases hf : List.find? (fun t => t.message_id == some e.message_id)
            db.tickets with _ | x
        · exact hf
        · rw [hf] at hdup
          exact absurd rfl hdup
      have hfals : ∀ x ∈ db.tickets,
          ¬ (x.message_id == some e.message_id) = true :=
        List.find?_eq_none.mp hnone
      have hne : a.message_id ≠ some e.message_id := by
        intro hcontra
        exact hfals a ha (by rw [hcontra]; exact beq_self_eq_true _)
      exact Or.inr hne
    · exact pairwise_updateFirstTicket_reset db.tickets t.id h

theorem uniqueMsgIds_schedulerIntakeStep (db : DB) (e : EmailData)
    (h : UniqueMsgIds db) : UniqueMsgIds (schedulerIntakeStep db e) := by
  unfold schedulerIntakeStep
  rcases hf : db.tickets.find? (fun t =>
      t.sender_email == e.sender_email && t.subject == e.subject) with _ | t
      <;> simp only [hf]
  · -- create: the new ticket carries no message_id at all
    unfold UniqueMsgIds
    simp only
    rw [List.pairwise_append]
    refine ⟨h, List.pairwise_singleton _ _, ?_⟩
    intro a ha b hb
    rcases List.mem_singleton.mp hb with rfl
    rcases hm : a.message_id with _ | m
    · exact Or.inl rfl
    · refine Or.inr ?_
      simp [Ticket.new]
  · exact h

theorem uniqueMsgIds_routeIntake (db : DB) (es : List EmailData)
    (h : UniqueMsgIds db) : UniqueMsgIds (routeIntake db es) := by
  induction es generalizing db with
  | nil => exact h
  | cons e rest ih => exact ih _ (uniqueMsgIds_routeIntakeStep db e h)

theorem uniqueMsgIds_schedulerIntake (db : DB) (es : List EmailData)
    (h : UniqueMsgIds db) : UniqueMsgIds (schedulerIntake db es) := by
  induction es generalizing db with
  | nil => exact h
  | cons e rest ih => exact ih _ (uniqueMsgIds_schedulerIntakeStep db e h)

/-- Claim C6 (amended): in every state reachable from a database with unique
non-null `message_id`s by route-fetch and scheduler-fetch operations, no
two tickets carry the same non-null `message_id`. (The second half of the
original claim fails: scheduler-created tickets store no `message_id` at
all — see the counterexample — so only route-created tickets carry their
root email's `message_id` as a dedup key.) -/
theorem C6_message_id_unique (db : DB) (ops : List IntakeOp)
    (h : UniqueMsgIds db) : UniqueMsgIds (applyIntakeOps db ops) := by
  induction ops generalizing db with
  | nil => exact h
  | cons op rest ih =>
    refine ih _ ?_
    rcases op with es | es
    · exact uniqueMsgIds_routeIntake db es h
    · exact uniqueMsgIds_schedulerIntake db es h

/-- A fresh email for the C6 scenario. -/
def emailC6 : EmailData :=
  { sender_email := "c6@example.org"
    subject := "New issue"
    body := "it is broken"
    message_id := "m6"
    in_reply_to := none
    thread_id := "m6"
    received_at := 0 }

/-- The empty database. -/
def dbC6 : DB :=
  { tickets := [], messages := [], settings := [], nextId := 1 }

/-- Claim C6, counterexample: the scheduler intake creates the ticket for
`emailC6` with `message_id = NULL`, not the root email's `"m6"` — so not
every stored ticket carries its root email's `message_id`. -/
theorem C6_counterexample :
    (schedulerIntake dbC6 [emailC6]).tickets.map Ticket.message_id = [none]
    ∧ (schedulerIntake dbC6 [emailC6]).tickets.map Ticket.message_id
        ≠ [some emailC6.message_id] := by
  exact ⟨rfl, by decide⟩

/-- Witness for C6: uniqueness holds after a route fetch followed by a
scheduler fetch of `emailC6` starting from the empty database. -/
theorem C6_message_id_unique_witness :
    UniqueMsgIds (applyIntakeOps dbC6
      [IntakeOp.route [emailC6], IntakeOp.sched [emailC6]]) :=
  C6_message_id_unique dbC6
    [IntakeOp.route [emailC6], IntakeOp.sched [emailC6]] List.Pairwise.nil

/-! ## Claim C8: new-ticket creation for fresh conversations -/

/-- Claim C8: a fetched email with no `References` tokens and no truthy
`In-Reply-To` header assembles with `in_reply_to = None` and
`thread_id = message_id`; if additionally no ticket already stores its
`message_id`, the route intake creates exactly one new `Ticket` plus one
root `TicketMessage` attached to it, and the new ticket's `thread_id`
equals its own `message_id`. -/
theorem C8_new_ticket_creation (raw : RawEmail) (db : DB)
    (hrefs : raw.references_tokens = [])
    (hirt : ∀ s, raw.in_reply_to_header = some s → s = "")
    (hdup : dedupHit db (assembleEmail raw) = false) :
    (assembleEmail raw).in_reply_to = none
    ∧ (assembleEmail raw).thread_id = (assembleEmail raw).message_id
    ∧ (routeIntakeStep db (assembleEmail raw)).tickets
        = db.tickets ++ [routeNewTicket db (assembleEmail raw)]
    ∧ (routeIntakeStep db (assembleEmail raw)).messages
        = db.messages ++ [rootMsg (assembleEmail raw) db.nextId]
    ∧ (routeNewTicket db (assembleEmail raw)).message_id
        = some (assembleEmail raw).message_id
    ∧ (routeNewTicket db (assembleEmail raw)).thread_id
        = (routeNewTicket db (assembleEmail raw)).message_id
    ∧ (rootMsg (assembleEmail raw) db.nextId).ticket_id
        = (routeNewTicket db (assembleEmail raw)).id := by
  have he_irt : (assembleEmail raw).in_reply_to = none := by
    unfold assembleEmail
    rcases hh : raw.in_reply_to_header with _ | s
    · rfl
    · have hs := hirt s hh
      subst hs
      simp
  have he_tid : (assembleEmail raw).thread_id = (assembleEmail raw).message_id := by
    unfold assembleEmail
    simp only
    rw [hrefs]
    unfold extract_thread_id
    rcases hh : raw.in_reply_to_header with _ | s
    · rfl
    · have hs := hirt s hh
      subst hs
      simp [pyOrOpt, pyOrStr]
  have hnothread : existingThread db (assembleEmail raw) = none := by
    unfold existingThread
    rw [if_neg]
    rw [he_irt]
    simp [optStrTruthy]
  have hstep : routeIntakeStep db (assembleEmail raw) =
      { db with
        tickets := db.tickets ++ [routeNewTicket db (assembleEmail raw)]
        messages := db.messages ++ [rootMsg (assembleEmail raw) db.nextId]
        nextId := db.nextId + 1 } := by
    unfold routeIntakeStep
    rw [if_neg (by rw [hdup]; exact Bool.false_ne_true), hnothread]
  refine ⟨he_irt, he_tid, by rw [hstep], by rw [hstep], rfl, ?_, rfl⟩
  show some (pyOrStr (assembleEmail raw).thread_id (assembleEmail raw).message_id)
      = some (assembleEmail raw).message_id
  rw [he_tid]
  unfold pyOrStr
  rw [ite_self]

/-- The raw headers of a fresh email: no `References`, no `In-Reply-To`. -/
def rawC8 : RawEmail :=
  { sender_email := "new@example.org"
    subject := "Setup question"
    body := "how do I configure X?"
    message_id_header := "<m8>"
    in_reply_to_header := none
    references_tokens := []
    received_at := 0 }

/-- An empty database for the C8 witness. -/
def dbC8 : DB :=
  { tickets := [], messages := [], settings := [], nextId := 1 }

/-- Witness for C8: the creation theorem applied to `rawC8` over the empty
database. -/
theorem C8_new_ticket_creation_witness :
    (assembleEmail rawC8).in_reply_to = none
    ∧ (assembleEmail rawC8).thread_id = (assembleEmail rawC8).message_id
    ∧ (routeIntakeStep dbC8 (assembleEmail rawC8)).tickets
        = dbC8.tickets ++ [routeNewTicket dbC8 (assembleEmail rawC8)]
    ∧ (routeIntakeStep dbC8 (assembleEmail rawC8)).messages
        = dbC8.messages ++ [rootMsg (assembleEmail rawC8) dbC8.nextId]
    ∧ (routeNewTicket dbC8 (assembleEmail rawC8)).message_id
        = some (assembleEmail rawC8).message_id
    ∧ (routeNewTicket dbC8 (assembleEmail rawC8)).thread_id
        = (routeNewTicket dbC8 (assembleEmail rawC8)).message_id
    ∧ (rootMsg (assembleEmail rawC8) dbC8.nextId).ticket_id
        = (routeNewTicket dbC8 (assembleEmail rawC8)).id :=
  C8_new_ticket_creation rawC8 dbC8 rfl (fun s hs => by cases hs) rfl

/-! ## Claim C9: error handling of `fetch_unread_emails` -/

/-- Database settings with a full IMAP configuration whose port value is
not a number. -/
def settingsC9 : List SettingsRow :=
  [("imap_host", "imap.example.com"), ("imap_port", "abc"),
   ("imap_username", "u@example.com"), ("imap_password", "pw")]

/-- An empty process environment. -/
def envC9 : String → Option String := fun _ => none

/-- Claim C9, counterexample: with `imap_port = "abc"` stored in settings,
`int()` raises inside `get_imap_config` *before* the `try` block of
`fetch_unread_emails`, so the exception propagates to the caller instead
of being caught — even though the IMAP session itself would succeed. -/
theorem C9_counterexample :
    fetch_unread_emails settingsC9 envC9 (ImapOutcome.ok []) = .error () := rfl

/-- Claim C9 (amended): provided the configured port parses as an integer
(`get_imap_config` succeeds), `fetch_unread_emails` never propagates an
exception: it always returns `.ok`, and it returns the empty list both
when the configuration is incomplete and when the IMAP connection, login
or search fails. -/
theorem C9_fetch_errors_caught (settings : List SettingsRow)
    (env : String → Option String) (outcome : ImapOutcome)
    (cfg : String × ℤ × String × String)
    (hcfg : get_imap_config settings env = some cfg) :
    (∃ l, fetch_unread_emails settings env outcome = .ok l)
    ∧ ((outcome = .connectError ∨ outcome = .loginError
          ∨ outcome = .searchError) →
        fetch_unread_emails settings env outcome = .ok [])
    ∧ (∀ host port user pass, cfg = (host, port, user, pass) →
        ¬ (host ≠ "" && user ≠ "" && pass ≠ "") = true →
        fetch_unread_emails settings env outcome = .ok []) := by
  obtain ⟨host, port, user, pass⟩ := cfg
  have hbody : fetch_unread_emails settings env outcome =
      (if !(host ≠ "" && user ≠ "" && pass ≠ "") then .ok []
       else
        match outcome with
        | .connectError => .ok []
        | .loginError => .ok []
        | .searchError => .ok []
        | .ok msgs => .ok (msgs.map assembleEmail)) := by
    unfold fetch_unread_emails
    rw [hcfg]
  by_cases hc : (host ≠ "" && user ≠ "" && pass ≠ "") = true
  · rw [hc] at hbody
    simp only [Bool.not_true, Bool.false_eq_true, if_false] at hbody
    refine ⟨?_, ?_, ?_⟩
    · rcases outcome with _ | _ | _ | msgs
      · exact ⟨[], hbody⟩
      · exact ⟨[], hbody⟩
      · exact ⟨[], hbody⟩
      · exact ⟨msgs.map assembleEmail, hbody⟩
    · intro hout
      rcases hout with rfl | rfl | rfl <;> exact hbody
    · intro h p u pw hpair hfalse
      injection hpair with h1 hrest
      injection hrest with h2 hrest
      injection hrest with h3 h4
      subst h1; subst h3; subst h4
      exact absurd hc hfalse
  · have hfalse : (host ≠ "" && user ≠ "" && pass ≠ "") = false :=
      Bool.not_eq_true _ ▸ Bool.eq_false_iff.mpr hc
    rw [hfalse] at hbody
    simp only [Bool.not_false, if_true] at hbody
    exact ⟨⟨[], hbody⟩, fun _ => hbody, fun _ _ _ _ _ _ => hbody⟩

/-- A process environment carrying a full IMAP configuration with a
parseable port. -/
def envC9ok : String → Option String := fun k =>
  if k = "IMAP_HOST" then some "imap.example.com"
  else if k = "IMAP_USERNAME" then some "u@example.com"
  else if k = "IMAP_PASSWORD" then some "pw"
  else none

/-- Witness for C9: the amended theorem applied to an environment-provided
configuration and a connection failure. -/
theorem C9_fetch_errors_caught_witness :
    (∃ l, fetch_unread_emails [] envC9ok ImapOutcome.connectError = .ok l)
    ∧ ((ImapOutcome.connectError = ImapOutcome.connectError
          ∨ ImapOutcome.connectError = ImapOutcome.loginError
          ∨ ImapOutcome.connectError = ImapOutcome.searchError) →
        fetch_unread_emails [] envC9ok ImapOutcome.connectError = .ok [])
    ∧ (∀ host port user pass,
        (("imap.example.com", (993 : ℤ), "u@example.com", "pw") :
            String × ℤ × String × String) = (host, port, user, pass) →
        ¬ (host ≠ "" && user ≠ "" && pass ≠ "") = true →
        fetch_unread_emails [] envC9ok ImapOutcome.connectError = .ok []) :=
  C9_fetch_errors_caught [] envC9ok ImapOutcome.connectError
    ("imap.example.com", 993, "u@example.com", "pw") rfl
